import Mathlib

/-!
Shallow embedding of the portfolio scene-animation subsystem:
the effect classes of src/js/project-animations.js (ProjectAnimation base
plus six subclasses, FlowPipeline modelled in full) and of the Three.js
effects file (AnimatedSphere, NeuralNetwork, DataCube, GeometricAnimation).

Modelling conventions:
* JS numbers are modelled as exact rationals (ℚ); decimal literals such as
  0.05 denote the corresponding rational.
* DOM state is explicit: a container carries its size and the list of child
  element ids; the renderer canvas is appended by id.  Global window
  listeners are an explicit list threaded through construction/teardown.
* `Math.random()` is an explicit stream argument `rng : Nat → ℚ`, indexed
  in the source call order; trigonometric functions and Math.PI are passed
  as uninterpreted parameters where an effect uses them.
* A constructor that hits the `if (!this.container) return;` guard is
  modelled as returning `none`: the JS object that `new` still produces is
  inert (no options, no scene, no renderer), so `none` stands for the
  absence of an initialized instance.
* `requestAnimationFrame` only schedules; the body of the first `animate()`
  call runs synchronously inside `init`, so `init` applies one frame step.
-/

/-- Components of a THREE.Vector3 as used by the code (positions, velocities). -/
structure Vec3 where
  x : ℚ
  y : ℚ
  z : ℚ
deriving DecidableEq

/-- A DOM container element: CSS pixel size plus the list of child element ids. -/
structure Container where
  clientWidth : ℚ
  clientHeight : ℚ
  children : List Nat
deriving DecidableEq

/-- Constructor argument: a direct element reference (possibly null) or a CSS
selector, per `typeof container === 'string' ? document.querySelector(container) : container`. -/
inductive ContainerRef where
  | element (c : Option Container)
  | selector (s : String)
deriving DecidableEq

/-- The document as far as querySelector is concerned: selector ↦ element. -/
abbrev Document := List (String × Container)

def querySelector (doc : Document) (s : String) : Option Container :=
  (doc.find? (fun p => p.1 == s)).map (fun p => p.2)

def resolveContainer (doc : Document) : ContainerRef → Option Container
  | ContainerRef.element c => c
  | ContainerRef.selector s => querySelector doc s

/-- Identity of a function object passed to window.addEventListener or
removeEventListener.  `init` registers fresh arrow wrappers
(`() => this.onResize()`, `(e) => this.onMouseMove(e)`); `destroy` passes the
prototype methods `this.onResize` / `this.onMouseMove`, which are different
function objects, so the two families are distinct constructors. -/
inductive Listener where
  | resizeArrow (instId : Nat)
  | mousemoveArrow (instId : Nat)
  | resizeMethod (instId : Nat)
  | mousemoveMethod (instId : Nat)
deriving DecidableEq

/-- THREE.PerspectiveCamera fields the code touches. -/
structure Camera where
  fov : ℚ
  aspect : ℚ
  near : ℚ
  far : ℚ
  posZ : ℚ
deriving DecidableEq

/-- THREE.WebGLRenderer fields the code touches. -/
structure Renderer where
  antialias : Bool
  alpha : Bool
  width : ℚ
  height : ℚ
  pixelRatio : ℚ
  domElementId : Nat
  disposed : Bool
deriving DecidableEq

/-! ### AnimatedSphere -/

/-- Options argument for AnimatedSphere: recognized keys (`Option` = present
or omitted) plus unrecognized keys, which the effect never reads; only their
presence matters, so they are modelled as a list of key names. -/
structure SphereOptionsIn where
  color : Option Nat := none
  wireframe : Option Bool := none
  segments : Option Nat := none
  radius : Option ℚ := none
  rotationSpeed : Option ℚ := none
  mouseInfluence : Option ℚ := none
  extra : List String := []
deriving DecidableEq

/-- The resolved `this.options` record. -/
structure SphereOptions where
  color : Nat
  wireframe : Bool
  segments : Nat
  radius : ℚ
  rotationSpeed : ℚ
  mouseInfluence : ℚ
  extra : List String
deriving DecidableEq

/-- Resolution `{ color: options.color || 0x1a1a1a, ..., ...options }`: the
trailing spread overrides each computed default with the raw given value
whenever the key is present, so a present key keeps its given value and an
omitted key falls back to the default (`options.wireframe !== false`
evaluates to true when the key is omitted); the spread also copies the
unrecognized keys into `this.options`. -/
def SphereOptionsIn.resolve (o : SphereOptionsIn) : SphereOptions :=
  { color := o.color.getD 0x1a1a1a,
    wireframe := o.wireframe.getD true,
    segments := o.segments.getD 32,
    radius := o.radius.getD 1.5,
    rotationSpeed := o.rotationSpeed.getD 0.001,
    mouseInfluence := o.mouseInfluence.getD 0.1,
    extra := o.extra }

/-- A wireframe icosahedron mesh: geometry radius and detail level, material
color/wireframe/opacity, current rotation. -/
structure SphereMesh where
  radius : ℚ
  detail : Nat
  color : Nat
  wireframe : Bool
  opacity : ℚ
  rotX : ℚ
  rotY : ℚ
deriving DecidableEq

structure SphereState where
  container : Container
  options : SphereOptions
  mouse : ℚ × ℚ
  targetRotation : ℚ × ℚ
  camera : Camera
  renderer : Renderer
  sphere : SphereMesh
  innerSphere : SphereMesh
  instId : Nat
deriving DecidableEq

/-- AnimatedSphere.createSphere: outer icosahedron (options.radius, detail 2,
opacity 0.8) and inner icosahedron (radius * 0.6, detail 1, always wireframe,
opacity 0.3). -/
def AnimatedSphere.createSphere (o : SphereOptions) : SphereMesh × SphereMesh :=
  ({ radius := o.radius, detail := 2, color := o.color, wireframe := o.wireframe,
     opacity := 0.8, rotX := 0, rotY := 0 },
   { radius := o.radius * 0.6, detail := 1, color := o.color, wireframe := true,
     opacity := 0.3, rotX := 0, rotY := 0 })

/-- One AnimatedSphere.animate frame body: auto-rotation increments for both
spheres, then the mouse-influence target, then interpolation by factor 0.05
toward the target (the render call itself does not change state). -/
def AnimatedSphere.animate (st : SphereState) : SphereState :=
  let s := st.options.rotationSpeed
  let sphY0 := st.sphere.rotY + s
  let sphX0 := st.sphere.rotX + s * 0.5
  let innY := st.innerSphere.rotY - s * 0.7
  let innX := st.innerSphere.rotX - s * 0.3
  let tX := st.mouse.2 * st.options.mouseInfluence
  let tY := st.mouse.1 * st.options.mouseInfluence
  let sphX := sphX0 + (tX - sphX0) * 0.05
  let sphY := sphY0 + (tY - sphY0) * 0.05
  { st with
    targetRotation := (tX, tY),
    sphere := { st.sphere with rotX := sphX, rotY := sphY },
    innerSphere := { st.innerSphere with rotX := innX, rotY := innY } }

/-- AnimatedSphere.onResize: recompute camera aspect and renderer size from
the container's current dimensions. -/
def AnimatedSphere.onResize (st : SphereState) : SphereState :=
  let width := st.container.clientWidth
  let height := st.container.clientHeight
  { st with
    camera := { st.camera with aspect := width / height },
    renderer := { st.renderer with width := width, height := height } }

/-- AnimatedSphere.init: camera (fov 50, container aspect, near 0.1, far 1000,
z = 4), transparent antialiased renderer sized to the container with pixel
ratio `Math.min(window.devicePixelRatio, 2)`, canvas appended to the
container, sphere geometry, the two global arrow listeners, and the
synchronous first animate() call. -/
def AnimatedSphere.init (c : Container) (o : SphereOptions) (dpr : ℚ)
    (canvasId instId : Nat) (ls : List Listener) : SphereState × List Listener :=
  let spheres := AnimatedSphere.createSphere o
  let st : SphereState :=
    { container := { c with children := c.children ++ [canvasId] },
      options := o,
      mouse := (0, 0),
      targetRotation := (0, 0),
      camera := { fov := 50, aspect := c.clientWidth / c.clientHeight,
                  near := 0.1, far := 1000, posZ := 4 },
      renderer := { antialias := true, alpha := true,
                    width := c.clientWidth, height := c.clientHeight,
                    pixelRatio := min dpr 2, domElementId := canvasId,
                    disposed := false },
      sphere := spheres.1,
      innerSphere := spheres.2,
      instId := instId }
  (AnimatedSphere.animate st,
   ls ++ [Listener.resizeArrow instId, Listener.mousemoveArrow instId])

/-- AnimatedSphere constructor: resolve the container, bail out on failure
(`if (!this.container) return;`), otherwise resolve options and run init. -/
def AnimatedSphere.construct (doc : Document) (ref : ContainerRef)
    (o : SphereOptionsIn) (dpr : ℚ) (canvasId instId : Nat)
    (ls : List Listener) : Option SphereState × List Listener :=
  match resolveContainer doc ref with
  | none => (none, ls)
  | some c =>
      let r := AnimatedSphere.init c o.resolve dpr canvasId instId ls
      (some r.1, r.2)

/-- AnimatedSphere.destroy: removeEventListener is called with the prototype
methods `this.onResize` / `this.onMouseMove` (not the registered arrow
wrappers), then renderer.dispose(), then removeChild(renderer.domElement). -/
def AnimatedSphere.destroy (st : SphereState) (ls : List Listener) :
    SphereState × List Listener :=
  let ls1 := ls.erase (Listener.resizeMethod st.instId)
  let ls2 := ls1.erase (Listener.mousemoveMethod st.instId)
  ({ st with
     renderer := { st.renderer with disposed := true },
     container := { st.container with
                    children := st.container.children.erase st.renderer.domElementId } },
   ls2)

/-! ### GeometricAnimation (contact-page torus knot) -/

structure GeoOptionsIn where
  color : Option Nat := none
  size : Option ℚ := none
  mouseInfluence : Option ℚ := none
  extra : List String := []
deriving DecidableEq

structure GeoOptions where
  color : Nat
  size : ℚ
  mouseInfluence : ℚ
  extra : List String
deriving DecidableEq

/-- Resolution `{ color: options.color || 0x4f46e5, size: options.size || 1.5,
mouseInfluence: options.mouseInfluence || 0.5, ...options }` (defaults then
spread, as for AnimatedSphere). -/
def GeoOptionsIn.resolve (o : GeoOptionsIn) : GeoOptions :=
  { color := o.color.getD 0x4f46e5,
    size := o.size.getD 1.5,
    mouseInfluence := o.mouseInfluence.getD 0.5,
    extra := o.extra }

/-- The torus-knot mesh: TorusKnotGeometry(1, 0.3, 100, 16) with wireframe
material, plus its current rotation. -/
structure GeoMesh where
  radius : ℚ
  tube : ℚ
  tubularSegments : Nat
  radialSegments : Nat
  color : Nat
  wireframe : Bool
  opacity : ℚ
  rotX : ℚ
  rotY : ℚ
deriving DecidableEq

structure GeoState where
  container : Container
  options : GeoOptions
  mouse : ℚ × ℚ
  targetRotation : ℚ × ℚ
  camera : Camera
  renderer : Renderer
  mesh : GeoMesh
  instId : Nat
deriving DecidableEq

/-- One GeometricAnimation.animate frame body: fixed auto-rotation increments
0.003 / 0.005, then the mouse-influence target, then interpolation by 0.05. -/
def GeometricAnimation.animate (st : GeoState) : GeoState :=
  let mX0 := st.mesh.rotX + 0.003
  let mY0 := st.mesh.rotY + 0.005
  let tX := st.mouse.2 * st.options.mouseInfluence
  let tY := st.mouse.1 * st.options.mouseInfluence
  let mX := mX0 + (tX - mX0) * 0.05
  let mY := mY0 + (tY - mY0) * 0.05
  { st with
    targetRotation := (tX, tY),
    mesh := { st.mesh with rotX := mX, rotY := mY } }

/-- GeometricAnimation.init: camera (fov 50, z = 5), transparent renderer with
capped pixel ratio, canvas appended, torus-knot mesh, the two global arrow
listeners, and the synchronous first animate() call. -/
def GeometricAnimation.init (c : Container) (o : GeoOptions) (dpr : ℚ)
    (canvasId instId : Nat) (ls : List Listener) : GeoState × List Listener :=
  let st : GeoState :=
    { container := { c with children := c.children ++ [canvasId] },
      options := o,
      mouse := (0, 0),
      targetRotation := (0, 0),
      camera := { fov := 50, aspect := c.clientWidth / c.clientHeight,
                  near := 0.1, far := 1000, posZ := 5 },
      renderer := { antialias := true, alpha := true,
                    width := c.clientWidth, height := c.clientHeight,
                    pixelRatio := min dpr 2, domElementId := canvasId,
                    disposed := false },
      mesh := { radius := 1, tube := 0.3, tubularSegments := 100,
                radialSegments := 16, color := o.color, wireframe := true,
                opacity := 0.6, rotX := 0, rotY := 0 },
      instId := instId }
  (GeometricAnimation.animate st,
   ls ++ [Listener.resizeArrow instId, Listener.mousemoveArrow instId])

def GeometricAnimation.construct (doc : Document) (ref : ContainerRef)
    (o : GeoOptionsIn) (dpr : ℚ) (canvasId instId : Nat)
    (ls : List Listener) : Option GeoState × List Listener :=
  match resolveContainer doc ref with
  | none => (none, ls)
  | some c =>
      let r := GeometricAnimation.init c o.resolve dpr canvasId instId ls
      (some r.1, r.2)

/-! ### ProjectAnimation base class (six project effects) -/

structure ProjOptionsIn where
  color : Option Nat := none
  extra : List String := []
deriving DecidableEq

structure ProjOptions where
  color : Nat
  extra : List String
deriving DecidableEq

/-- Resolution `{ color: options.color || 0x4f46e5, ...options }`. -/
def ProjOptionsIn.resolve (o : ProjOptionsIn) : ProjOptions :=
  { color := o.color.getD 0x4f46e5, extra := o.extra }

/-- State of a ProjectAnimation instance; `G` is the subclass-specific
geometry state built by the `createGeometry` hook and advanced by the
`update` hook. -/
structure ProjState (G : Type) where
  container : Container
  options : ProjOptions
  mouse : ℚ × ℚ
  camera : Camera
  renderer : Renderer
  geom : G
  instId : Nat
deriving DecidableEq

/-- One ProjectAnimation.animate frame body: the subclass `update` hook, then
the render call (which does not change state). -/
def ProjectAnimation.animate {G : Type} (updateFn : G → G) (st : ProjState G) :
    ProjState G :=
  { st with geom := updateFn st.geom }

/-- ProjectAnimation.onResize: recompute camera aspect and renderer size from
the container's current dimensions. -/
def ProjectAnimation.onResize {G : Type} (st : ProjState G) : ProjState G :=
  let width := st.container.clientWidth
  let height := st.container.clientHeight
  { st with
    camera := { st.camera with aspect := width / height },
    renderer := { st.renderer with width := width, height := height } }

/-- ProjectAnimation.init: camera (fov 50, z = 5), transparent antialiased
renderer with pixel ratio `Math.min(window.devicePixelRatio, 2)`, canvas
appended, the two global arrow listeners, the subclass createGeometry hook,
and the synchronous first animate() call. -/
def ProjectAnimation.init {G : Type} (createGeometryFn : ProjOptions → G)
    (updateFn : G → G) (c : Container) (o : ProjOptions) (dpr : ℚ)
    (canvasId instId : Nat) (ls : List Listener) : ProjState G × List Listener :=
  let st : ProjState G :=
    { container := { c with children := c.children ++ [canvasId] },
      options := o,
      mouse := (0, 0),
      camera := { fov := 50, aspect := c.clientWidth / c.clientHeight,
                  near := 0.1, far := 1000, posZ := 5 },
      renderer := { antialias := true, alpha := true,
                    width := c.clientWidth, height := c.clientHeight,
                    pixelRatio := min dpr 2, domElementId := canvasId,
                    disposed := false },
      geom := createGeometryFn o,
      instId := instId }
  (ProjectAnimation.animate updateFn st,
   ls ++ [Listener.resizeArrow instId, Listener.mousemoveArrow instId])

/-- ProjectAnimation constructor (shared by all six project effects). -/
def ProjectAnimation.construct {G : Type} (createGeometryFn : ProjOptions → G)
    (updateFn : G → G) (doc : Document) (ref : ContainerRef)
    (o : ProjOptionsIn) (dpr : ℚ) (canvasId instId : Nat)
    (ls : List Listener) : Option (ProjState G) × List Listener :=
  match resolveContainer doc ref with
  | none => (none, ls)
  | some c =>
      let r := ProjectAnimation.init createGeometryFn updateFn c o.resolve dpr
        canvasId instId ls
      (some r.1, r.2)

/-! ### FlowPipeline (RL Supply Chain project effect) -/

/-- A flow particle: SphereGeometry(0.15, 8, 8) mesh with position x and
rotation. -/
structure FlowParticle where
  posX : ℚ
  rotX : ℚ
  rotY : ℚ
deriving DecidableEq

/-- FlowPipeline geometry state: pipe rotation, the five flow particles, the
two end nodes, and the pipe material color. -/
structure FlowGeom where
  pipeColor : Nat
  pipeRotZ : ℚ
  particles : List FlowParticle
  nodeStartPosX : ℚ
  nodeEndPosX : ℚ
  nodeStartRotY : ℚ
  nodeEndRotY : ℚ
deriving DecidableEq

/-- FlowPipeline.createGeometry: pipe rotated by Math.PI / 2 (π passed as the
parameter piQ), five particles at x = -3 + i * 1.5, and end nodes at ±3.5. -/
def FlowPipeline.createGeometry (piQ : ℚ) (o : ProjOptions) : FlowGeom :=
  { pipeColor := o.color,
    pipeRotZ := piQ / 2,
    particles := (List.range 5).map (fun (i : Nat) =>
      { posX := -3 + (i : ℚ) * 1.5, rotX := 0, rotY := 0 }),
    nodeStartPosX := -3.5,
    nodeEndPosX := 3.5,
    nodeStartRotY := 0,
    nodeEndRotY := 0 }

/-- Per-particle step of FlowPipeline.update: advance x by speed 0.02, wrap to
-3.5 when x exceeds 3.5, and spin the particle. -/
def FlowParticle.step (p : FlowParticle) : FlowParticle :=
  let x0 := p.posX + 0.02
  let x := if x0 > 3.5 then -3.5 else x0
  { posX := x, rotX := p.rotX + 0.02, rotY := p.rotY + 0.02 }

/-- FlowPipeline.update: step every particle, rotate the two end nodes. -/
def FlowPipeline.update (g : FlowGeom) : FlowGeom :=
  { g with
    particles := g.particles.map FlowParticle.step,
    nodeStartRotY := g.nodeStartRotY + 0.01,
    nodeEndRotY := g.nodeEndRotY - 0.01 }

/-- FlowPipeline constructor: the base-class constructor instantiated with
the FlowPipeline hooks. -/
def FlowPipeline.construct (piQ : ℚ) (doc : Document) (ref : ContainerRef)
    (o : ProjOptionsIn) (dpr : ℚ) (canvasId instId : Nat)
    (ls : List Listener) : Option (ProjState FlowGeom) × List Listener :=
  ProjectAnimation.construct (FlowPipeline.createGeometry piQ)
    FlowPipeline.update doc ref o dpr canvasId instId ls

/-! ### NeuralNetwork (node-graph effect) -/

structure NetOptionsIn where
  nodeCount : Option Nat := none
  connectionDistance : Option ℚ := none
  nodeColor : Option Nat := none
  lineColor : Option Nat := none
  rotationSpeed : Option ℚ := none
  extra : List String := []
deriving DecidableEq

structure NetOptions where
  nodeCount : Nat
  connectionDistance : ℚ
  nodeColor : Nat
  lineColor : Nat
  rotationSpeed : ℚ
  extra : List String
deriving DecidableEq

/-- Resolution `{ nodeCount: options.nodeCount || 50, connectionDistance:
options.connectionDistance || 2, nodeColor: options.nodeColor || 0x4f46e5,
lineColor: options.lineColor || 0x8b5cf6, rotationSpeed:
options.rotationSpeed || 0.0005, ...options }`. -/
def NetOptionsIn.resolve (o : NetOptionsIn) : NetOptions :=
  { nodeCount := o.nodeCount.getD 50,
    connectionDistance := o.connectionDistance.getD 2,
    nodeColor := o.nodeColor.getD 0x4f46e5,
    lineColor := o.lineColor.getD 0x8b5cf6,
    rotationSpeed := o.rotationSpeed.getD 0.0005,
    extra := o.extra }

/-- One network node: its position and its `userData.velocity`. -/
structure NetNode where
  pos : Vec3
  vel : Vec3
deriving DecidableEq

/-- What the NeuralNetwork constructor builds: it stores the container and
options and initializes `this.nodes = []` and `this.lines = []`, then stops
(`// Skipping synchronous init to allow async init flow`); scene, camera,
renderer, geometry and listeners appear only when `init()` is called. -/
structure NetPre where
  container : Container
  options : NetOptions
  nodes : List NetNode
  lines : List (Vec3 × Vec3)
deriving DecidableEq

structure NetState where
  container : Container
  options : NetOptions
  camera : Camera
  renderer : Renderer
  nodes : List NetNode
  lines : List (Vec3 × Vec3)
  nodeGroupRotY : ℚ
  lineGroupRotY : ℚ
  instId : Nat
deriving DecidableEq

/-- NeuralNetwork constructor: resolve the container, bail out on failure,
otherwise store resolved options with empty node and line collections. -/
def NeuralNetwork.construct (doc : Document) (ref : ContainerRef)
    (o : NetOptionsIn) : Option NetPre :=
  match resolveContainer doc ref with
  | none => none
  | some c => some { container := c, options := o.resolve, nodes := [], lines := [] }

/-- NeuralNetwork.createNetwork: nodeCount nodes with position components
`(Math.random() - 0.5) * 4` and velocity components
`(Math.random() - 0.5) * 0.01`; the rng stream is indexed in the source call
order (six draws per node).  The line group starts empty. -/
def NeuralNetwork.createNetwork (o : NetOptions) (rng : Nat → ℚ) : List NetNode :=
  (List.range o.nodeCount).map (fun i =>
    { pos := { x := (rng (6 * i) - 0.5) * 4,
               y := (rng (6 * i + 1) - 0.5) * 4,
               z := (rng (6 * i + 2) - 0.5) * 4 },
      vel := { x := (rng (6 * i + 3) - 0.5) * 0.01,
               y := (rng (6 * i + 4) - 0.5) * 0.01,
               z := (rng (6 * i + 5) - 0.5) * 0.01 } })

/-- All unordered pairs of list elements, in the order produced by the
source's double loop `for i; for j = i + 1`. -/
def allPairs {α : Type} : List α → List (α × α)
  | [] => []
  | a :: rest => (rest.map (fun b => (a, b))) ++ allPairs rest

/-- Squared Euclidean distance between two positions. -/
def dist2 (a b : Vec3) : ℚ :=
  (a.x - b.x) ^ 2 + (a.y - b.y) ^ 2 + (a.z - b.z) ^ 2

/-- The test `position.distanceTo(other) < connectionDistance`, encoded
without square roots: for a positive threshold d, dist < d iff dist² < d²,
and for d ≤ 0 the test is false since distanceTo is nonnegative. -/
def connects (d : ℚ) (a b : Vec3) : Bool :=
  decide (0 < d) && decide (dist2 a b < d * d)

/-- NeuralNetwork.updateConnections: clear the line group, then add one line
for every pair i < j whose distance is below the threshold (the line stores a
copy of the two endpoint positions via setFromPoints). -/
def NeuralNetwork.updateConnections (ps : List Vec3) (d : ℚ) :
    List (Vec3 × Vec3) :=
  (allPairs ps).filter (fun pq => connects d pq.1 pq.2)

/-- Number of unordered node pairs whose current distance is below the
threshold (the specification-side count). -/
def closePairCount (ps : List Vec3) (d : ℚ) : Nat :=
  (allPairs ps).countP (fun pq => connects d pq.1 pq.2)

/-- Per-axis body of the node movement in NeuralNetwork.animate: the position
component is advanced by the velocity, then
`if (Math.abs(node.position[axis]) > 2) velocity *= -1`. -/
def NeuralNetwork.axisStep (p v : ℚ) : ℚ × ℚ :=
  let p2 := p + v
  if 2 < |p2| then (p2, -v) else (p2, v)

def NeuralNetwork.nodeStep (nd : NetNode) : NetNode :=
  let rx := NeuralNetwork.axisStep nd.pos.x nd.vel.x
  let ry := NeuralNetwork.axisStep nd.pos.y nd.vel.y
  let rz := NeuralNetwork.axisStep nd.pos.z nd.vel.z
  { pos := { x := rx.1, y := ry.1, z := rz.1 },
    vel := { x := rx.2, y := ry.2, z := rz.2 } }

/-- One NeuralNetwork.animate frame body: move and bounce every node, then
`if (Math.random() < 0.1) this.updateConnections()` — the coin flip is the
explicit `recompute` argument — then rotate both groups. -/
def NeuralNetwork.animate (recompute : Bool) (st : NetState) : NetState :=
  let nodes := st.nodes.map NeuralNetwork.nodeStep
  let lines :=
    if recompute then
      NeuralNetwork.updateConnections (nodes.map NetNode.pos)
        st.options.connectionDistance
    else st.lines
  { st with
    nodes := nodes,
    lines := lines,
    nodeGroupRotY := st.nodeGroupRotY + st.options.rotationSpeed,
    lineGroupRotY := st.lineGroupRotY + st.options.rotationSpeed }

/-- Iterated animate with an explicit list of connection-recompute coin
flips, one per frame. -/
def NeuralNetwork.run (flags : List Bool) (st : NetState) : NetState :=
  flags.foldl (fun s b => NeuralNetwork.animate b s) st

/-- NeuralNetwork.init: camera (fov 60, z = 5), transparent renderer with
capped pixel ratio, canvas appended, createNetwork, the global resize arrow
listener, and the synchronous first animate() call (whose connection-update
coin flip is the `recompute0` argument). -/
def NeuralNetwork.init (pre : NetPre) (dpr : ℚ) (canvasId instId : Nat)
    (rng : Nat → ℚ) (recompute0 : Bool) (ls : List Listener) :
    NetState × List Listener :=
  let c := pre.container
  let st : NetState :=
    { container := { c with children := c.children ++ [canvasId] },
      options := pre.options,
      camera := { fov := 60, aspect := c.clientWidth / c.clientHeight,
                  near := 0.1, far := 1000, posZ := 5 },
      renderer := { antialias := true, alpha := true,
                    width := c.clientWidth, height := c.clientHeight,
                    pixelRatio := min dpr 2, domElementId := canvasId,
                    disposed := false },
      nodes := pre.nodes ++ NeuralNetwork.createNetwork pre.options rng,
      lines := pre.lines,
      nodeGroupRotY := 0,
      lineGroupRotY := 0,
      instId := instId }
  (NeuralNetwork.animate recompute0 st, ls ++ [Listener.resizeArrow instId])

/-! ### DataCube (floating-cubes effect) -/

structure CubeOptionsIn where
  cubeCount : Option Nat := none
  cubeColor : Option Nat := none
  rotationSpeed : Option ℚ := none
  extra : List String := []
deriving DecidableEq

structure CubeOptions where
  cubeCount : Nat
  cubeColor : Nat
  rotationSpeed : ℚ
  extra : List String
deriving DecidableEq

/-- Resolution `{ cubeCount: options.cubeCount || 6, cubeColor:
options.cubeColor || 0x4f46e5, rotationSpeed: options.rotationSpeed || 0.005,
...options }`. -/
def CubeOptionsIn.resolve (o : CubeOptionsIn) : CubeOptions :=
  { cubeCount := o.cubeCount.getD 6,
    cubeColor := o.cubeColor.getD 0x4f46e5,
    rotationSpeed := o.rotationSpeed.getD 0.005,
    extra := o.extra }

/-- One floating cube: random size, circular-pattern position, per-cube
rotation speeds and float offset, palette color. -/
structure Cube where
  size : ℚ
  posX : ℚ
  posY : ℚ
  posZ : ℚ
  rotX : ℚ
  rotY : ℚ
  rotSpeedX : ℚ
  rotSpeedY : ℚ
  floatOffset : ℚ
  color : Nat
deriving DecidableEq

/-- What the DataCube constructor builds before `init()` is called
(`// Skipping synchronous init to allow async init flow`). -/
structure CubePre where
  container : Container
  options : CubeOptions
  cubes : List Cube
deriving DecidableEq

structure CubeState where
  container : Container
  options : CubeOptions
  camera : Camera
  renderer : Renderer
  cubes : List Cube
  centerRotX : ℚ
  centerRotY : ℚ
  sceneRotY : ℚ
  instId : Nat
deriving DecidableEq

def DataCube.construct (doc : Document) (ref : ContainerRef)
    (o : CubeOptionsIn) : Option CubePre :=
  match resolveContainer doc ref with
  | none => none
  | some c => some { container := c, options := o.resolve, cubes := [] }

/-- The fixed palette `[0x4f46e5, 0x8b5cf6, 0x06b6d4, 0x10b981, 0xf59e0b,
0xef4444]` indexed by `i % colors.length`. -/
def DataCube.paletteColor (i : Nat) : Nat :=
  [0x4f46e5, 0x8b5cf6, 0x06b6d4, 0x10b981, 0xf59e0b, 0xef4444].getD (i % 6) 0

/-- DataCube.createCubes: cubeCount cubes placed on a circle of randomized
radius (cos/sin and π are the uninterpreted parameters cosQ/sinQ/piQ; the rng
stream is indexed in the source call order, six draws per cube). -/
def DataCube.createCubes (o : CubeOptions) (rng : Nat → ℚ)
    (cosQ sinQ : ℚ → ℚ) (piQ : ℚ) : List Cube :=
  (List.range o.cubeCount).map (fun (i : Nat) =>
    let angle := ((i : ℚ) / (o.cubeCount : ℚ)) * piQ * 2
    let radius := 1.5 + rng (6 * i + 1) * 0.5
    { size := 0.3 + rng (6 * i) * 0.4,
      posX := cosQ angle * radius,
      posY := (rng (6 * i + 2) - 0.5) * 2,
      posZ := sinQ angle * radius,
      rotX := 0,
      rotY := 0,
      rotSpeedX := (rng (6 * i + 3) - 0.5) * 0.02,
      rotSpeedY := (rng (6 * i + 4) - 0.5) * 0.02,
      floatOffset := rng (6 * i + 5) * piQ * 2,
      color := DataCube.paletteColor i })

/-- One DataCube.animate frame body: spin each cube by its own speeds, float
it by `Math.sin(time + floatOffset) * 0.002`, spin the center icosahedron,
rotate the whole scene (`time` is `Date.now() * 0.001`, passed explicitly;
sin is the uninterpreted parameter sinQ). -/
def DataCube.animate (sinQ : ℚ → ℚ) (time : ℚ) (st : CubeState) : CubeState :=
  { st with
    cubes := st.cubes.map (fun cb =>
      { cb with
        rotX := cb.rotX + cb.rotSpeedX,
        rotY := cb.rotY + cb.rotSpeedY,
        posY := cb.posY + sinQ (time + cb.floatOffset) * 0.002 }),
    centerRotX := st.centerRotX + 0.003,
    centerRotY := st.centerRotY + 0.005,
    sceneRotY := st.sceneRotY + st.options.rotationSpeed }

/-- DataCube.init: camera (fov 50, z = 6), transparent renderer with capped
pixel ratio, canvas appended, createCubes, the global resize arrow listener,
and the synchronous first animate() call at wall-clock value time0. -/
def DataCube.init (pre : CubePre) (dpr : ℚ) (canvasId instId : Nat)
    (rng : Nat → ℚ) (cosQ sinQ : ℚ → ℚ) (piQ time0 : ℚ)
    (ls : List Listener) : CubeState × List Listener :=
  let c := pre.container
  let st : CubeState :=
    { container := { c with children := c.children ++ [canvasId] },
      options := pre.options,
      camera := { fov := 50, aspect := c.clientWidth / c.clientHeight,
                  near := 0.1, far := 1000, posZ := 6 },
      renderer := { antialias := true, alpha := true,
                    width := c.clientWidth, height := c.clientHeight,
                    pixelRatio := min dpr 2, domElementId := canvasId,
                    disposed := false },
      cubes := pre.cubes ++ DataCube.createCubes pre.options rng cosQ sinQ piQ,
      centerRotX := 0,
      centerRotY := 0,
      sceneRotY := 0,
      instId := instId }
  (DataCube.animate sinQ time0 st, ls ++ [Listener.resizeArrow instId])

/-- GeometricAnimation.onResize: recompute camera aspect and renderer size
from the container's current dimensions. -/
def GeometricAnimation.onResize (st : GeoState) : GeoState :=
  let width := st.container.clientWidth
  let height := st.container.clientHeight
  { st with
    camera := { st.camera with aspect := width / height },
    renderer := { st.renderer with width := width, height := height } }

/-- NeuralNetwork.onResize: recompute camera aspect and renderer size from
the container's current dimensions. -/
def NeuralNetwork.onResize (st : NetState) : NetState :=
  let width := st.container.clientWidth
  let height := st.container.clientHeight
  { st with
    camera := { st.camera with aspect := width / height },
    renderer := { st.renderer with width := width, height := height } }

/-- DataCube.onResize: recompute camera aspect and renderer size from the
container's current dimensions. -/
def DataCube.onResize (st : CubeState) : CubeState :=
  let width := st.container.clientWidth
  let height := st.container.clientHeight
  { st with
    camera := { st.camera with aspect := width / height },
    renderer := { st.renderer with width := width, height := height } }

/-! ### Helper lemmas -/

theorem allPairs_length {α : Type} (l : List α) :
    (allPairs l).length = l.length.choose 2 := by
  induction l with
  | nil => simp [allPairs]
  | cons a rest ih =>
      simp only [allPairs, List.length_append, List.length_map, ih,
        List.length_cons, Nat.choose_succ_succ, Nat.choose_one_right]

/-! ### Claim theorems -/

/-- C1: for every effect class, constructing with a container argument that
cannot be resolved (a null element, or a selector matching no element) is a
no-op: the constructor returns totally (no exception), produces no
initialized instance (no scene/camera/renderer state), and leaves the global
listener list — and every DOM element — unchanged. -/
theorem construct_unresolved_noop (doc : Document) (ref : ContainerRef)
    (h : resolveContainer doc ref = none)
    (so : SphereOptionsIn) (go : GeoOptionsIn) (po : ProjOptionsIn)
    (no : NetOptionsIn) (co : CubeOptionsIn) (dpr : ℚ) (canvasId instId : Nat)
    (ls : List Listener) {G : Type} (cg : ProjOptions → G) (upd : G → G) :
    AnimatedSphere.construct doc ref so dpr canvasId instId ls = (none, ls) ∧
    GeometricAnimation.construct doc ref go dpr canvasId instId ls = (none, ls) ∧
    ProjectAnimation.construct cg upd doc ref po dpr canvasId instId ls = (none, ls) ∧
    NeuralNetwork.construct doc ref no = none ∧
    DataCube.construct doc ref co = none := by
  refine ⟨?_, ?_, ?_, ?_, ?_⟩ <;>
    simp [AnimatedSphere.construct, GeometricAnimation.construct,
      ProjectAnimation.construct, NeuralNetwork.construct, DataCube.construct, h]

/-- C1 witness: an empty document resolves no selector; all five constructors
are no-ops there. -/
theorem construct_unresolved_noop_witness :
    resolveContainer [] (ContainerRef.selector "#hero") = none ∧
    (AnimatedSphere.construct [] (ContainerRef.selector "#hero") {} 1 5 0 [] = (none, []) ∧
     GeometricAnimation.construct [] (ContainerRef.selector "#hero") {} 1 5 0 [] = (none, []) ∧
     ProjectAnimation.construct (FlowPipeline.createGeometry 3) FlowPipeline.update
       [] (ContainerRef.selector "#hero") {} 1 5 0 [] = (none, []) ∧
     NeuralNetwork.construct [] (ContainerRef.selector "#hero") {} = none ∧
     DataCube.construct [] (ContainerRef.selector "#hero") {} = none) :=
  ⟨rfl, construct_unresolved_noop [] (ContainerRef.selector "#hero") rfl
    {} {} {} {} {} 1 5 0 [] (FlowPipeline.createGeometry 3) FlowPipeline.update⟩

/-- C9: at initialization every effect sets the renderer pixel ratio to
min(window.devicePixelRatio, 2); the effective pixel ratio therefore never
exceeds 2, whatever the display reports. -/
theorem init_pixel_ratio_capped (c : Container) (so : SphereOptions)
    (go : GeoOptions) (po : ProjOptions) (pre : NetPre) (cpre : CubePre)
    (dpr : ℚ) (canvasId instId : Nat) (ls : List Listener)
    (rng : Nat → ℚ) (cosQ sinQ : ℚ → ℚ) (piQ time0 : ℚ) (b : Bool)
    {G : Type} (cg : ProjOptions → G) (upd : G → G) :
    (AnimatedSphere.init c so dpr canvasId instId ls).1.renderer.pixelRatio = min dpr 2 ∧
    (GeometricAnimation.init c go dpr canvasId instId ls).1.renderer.pixelRatio = min dpr 2 ∧
    (ProjectAnimation.init cg upd c po dpr canvasId instId ls).1.renderer.pixelRatio = min dpr 2 ∧
    (NeuralNetwork.init pre dpr canvasId instId rng b ls).1.renderer.pixelRatio = min dpr 2 ∧
    (DataCube.init cpre dpr canvasId instId rng cosQ sinQ piQ time0 ls).1.renderer.pixelRatio = min dpr 2 ∧
    min dpr 2 ≤ 2 :=
  ⟨rfl, rfl, rfl, rfl, rfl, min_le_right dpr 2⟩

/-- C7: after the container size changes from (W, H) to (2W, 2H), the resize
handler sets the renderer's reported size to (2W, 2H) and the camera aspect
to 2W/2H, and leaves every scene object (meshes, nodes, lines, cubes,
subclass geometry state) untouched.  Stated for all five resize handlers:
AnimatedSphere.onResize, the shared ProjectAnimation.onResize used by the
six project effects, GeometricAnimation.onResize, NeuralNetwork.onResize,
and DataCube.onResize. -/
theorem resize_doubles_renderer_size_keeps_objects (st : SphereState)
    {G : Type} (pst : ProjState G) (gst : GeoState) (nst : NetState)
    (cst : CubeState) (W H : ℚ) :
    (AnimatedSphere.onResize
        { st with container := { st.container with clientWidth := 2 * W, clientHeight := 2 * H } }).renderer.width = 2 * W ∧
    (AnimatedSphere.onResize
        { st with container := { st.container with clientWidth := 2 * W, clientHeight := 2 * H } }).renderer.height = 2 * H ∧
    (AnimatedSphere.onResize
        { st with container := { st.container with clientWidth := 2 * W, clientHeight := 2 * H } }).camera.aspect = 2 * W / (2 * H) ∧
    (AnimatedSphere.onResize
        { st with container := { st.container with clientWidth := 2 * W, clientHeight := 2 * H } }).sphere = st.sphere ∧
    (AnimatedSphere.onResize
        { st with container := { st.container with clientWidth := 2 * W, clientHeight := 2 * H } }).innerSphere = st.innerSphere ∧
    (ProjectAnimation.onResize
        { pst with container := { pst.container with clientWidth := 2 * W, clientHeight := 2 * H } }).renderer.width = 2 * W ∧
    (ProjectAnimation.onResize
        { pst with container := { pst.container with clientWidth := 2 * W, clientHeight := 2 * H } }).renderer.height = 2 * H ∧
    (ProjectAnimation.onResize
        { pst with container := { pst.container with clientWidth := 2 * W, clientHeight := 2 * H } }).camera.aspect = 2 * W / (2 * H) ∧
    (ProjectAnimation.onResize
        { pst with container := { pst.container with clientWidth := 2 * W, clientHeight := 2 * H } }).geom = pst.geom ∧
    (GeometricAnimation.onResize
        { gst with container := { gst.container with clientWidth := 2 * W, clientHeight := 2 * H } }).renderer.width = 2 * W ∧
    (GeometricAnimation.onResize
        { gst with container := { gst.container with clientWidth := 2 * W, clientHeight := 2 * H } }).renderer.height = 2 * H ∧
    (GeometricAnimation.onResize
        { gst with container := { gst.container with clientWidth := 2 * W, clientHeight := 2 * H } }).camera.aspect = 2 * W / (2 * H) ∧
    (GeometricAnimation.onResize
        { gst with container := { gst.container with clientWidth := 2 * W, clientHeight := 2 * H } }).mesh = gst.mesh ∧
    (NeuralNetwork.onResize
        { nst with container := { nst.container with clientWidth := 2 * W, clientHeight := 2 * H } }).renderer.width = 2 * W ∧
    (NeuralNetwork.onResize
        { nst with container := { nst.container with clientWidth := 2 * W, clientHeight := 2 * H } }).renderer.height = 2 * H ∧
    (NeuralNetwork.onResize
        { nst with container := { nst.container with clientWidth := 2 * W, clientHeight := 2 * H } }).camera.aspect = 2 * W / (2 * H) ∧
    (NeuralNetwork.onResize
        { nst with container := { nst.container with clientWidth := 2 * W, clientHeight := 2 * H } }).nodes = nst.nodes ∧
    (NeuralNetwork.onResize
        { nst with container := { nst.container with clientWidth := 2 * W, clientHeight := 2 * H } }).lines = nst.lines ∧
    (DataCube.onResize
        { cst with container := { cst.container with clientWidth := 2 * W, clientHeight := 2 * H } }).renderer.width = 2 * W ∧
    (DataCube.onResize
        { cst with container := { cst.container with clientWidth := 2 * W, clientHeight := 2 * H } }).renderer.height = 2 * H ∧
    (DataCube.onResize
        { cst with container := { cst.container with clientWidth := 2 * W, clientHeight := 2 * H } }).camera.aspect = 2 * W / (2 * H) ∧
    (DataCube.onResize
        { cst with container := { cst.container with clientWidth := 2 * W, clientHeight := 2 * H } }).cubes = cst.cubes :=
  ⟨rfl, rfl, rfl, rfl, rfl, rfl, rfl, rfl, rfl, rfl, rfl, rfl, rfl, rfl, rfl,
   rfl, rfl, rfl, rfl, rfl, rfl, rfl⟩

/-- C8: for every effect, every omitted option falls back to its documented
default — stated both for the fully-omitted record and per individually
omitted key, with the other keys arbitrary — and unrecognized option keys
(copied into this.options by the trailing spread but never read) change
neither the resolved recognized fields nor any observable behavior: the
geometry constructors (createSphere, FlowPipeline.createGeometry,
createNetwork, createCubes) and the frame updates (all animate functions)
are invariant under extra keys. -/
theorem options_defaults_and_unrecognized_ignored :
    (∀ e : List String,
      ({ extra := e } : SphereOptionsIn).resolve =
        { color := 0x1a1a1a, wireframe := true, segments := 32, radius := 1.5,
          rotationSpeed := 0.001, mouseInfluence := 0.1, extra := e }) ∧
    (∀ o : SphereOptionsIn, ({ o with color := none } : SphereOptionsIn).resolve.color = 0x1a1a1a) ∧
    (∀ o : SphereOptionsIn, ({ o with wireframe := none } : SphereOptionsIn).resolve.wireframe = true) ∧
    (∀ o : SphereOptionsIn, ({ o with segments := none } : SphereOptionsIn).resolve.segments = 32) ∧
    (∀ o : SphereOptionsIn, ({ o with radius := none } : SphereOptionsIn).resolve.radius = 1.5) ∧
    (∀ o : SphereOptionsIn, ({ o with rotationSpeed := none } : SphereOptionsIn).resolve.rotationSpeed = 0.001) ∧
    (∀ o : SphereOptionsIn, ({ o with mouseInfluence := none } : SphereOptionsIn).resolve.mouseInfluence = 0.1) ∧
    (∀ (o : SphereOptionsIn) (e : List String),
      ({ o with extra := e } : SphereOptionsIn).resolve = { o.resolve with extra := e }) ∧
    (∀ (st : SphereState) (e : List String),
      AnimatedSphere.animate { st with options := { st.options with extra := e } } =
        { AnimatedSphere.animate st with options := { st.options with extra := e } }) ∧
    (∀ (o : SphereOptions) (e : List String),
      AnimatedSphere.createSphere { o with extra := e } = AnimatedSphere.createSphere o) ∧
    (∀ e : List String,
      ({ extra := e } : GeoOptionsIn).resolve =
        { color := 0x4f46e5, size := 1.5, mouseInfluence := 0.5, extra := e }) ∧
    (∀ o : GeoOptionsIn, ({ o with color := none } : GeoOptionsIn).resolve.color = 0x4f46e5) ∧
    (∀ o : GeoOptionsIn, ({ o with size := none } : GeoOptionsIn).resolve.size = 1.5) ∧
    (∀ o : GeoOptionsIn, ({ o with mouseInfluence := none } : GeoOptionsIn).resolve.mouseInfluence = 0.5) ∧
    (∀ (o : GeoOptionsIn) (e : List String),
      ({ o with extra := e } : GeoOptionsIn).resolve = { o.resolve with extra := e }) ∧
    (∀ (gst : GeoState) (e : List String),
      GeometricAnimation.animate { gst with options := { gst.options with extra := e } } =
        { GeometricAnimation.animate gst with options := { gst.options with extra := e } }) ∧
    (∀ e : List String,
      ({ extra := e } : ProjOptionsIn).resolve = { color := 0x4f46e5, extra := e }) ∧
    (∀ o : ProjOptionsIn, ({ o with color := none } : ProjOptionsIn).resolve.color = 0x4f46e5) ∧
    (∀ (o : ProjOptionsIn) (e : List String),
      ({ o with extra := e } : ProjOptionsIn).resolve = { o.resolve with extra := e }) ∧
    (∀ (G : Type) (upd : G → G) (pst : ProjState G) (e : List String),
      ProjectAnimation.animate upd { pst with options := { pst.options with extra := e } } =
        { ProjectAnimation.animate upd pst with options := { pst.options with extra := e } }) ∧
    (∀ (o : ProjOptions) (e : List String) (piQ : ℚ),
      FlowPipeline.createGeometry piQ { o with extra := e } =
        FlowPipeline.createGeometry piQ o) ∧
    (∀ e : List String,
      ({ extra := e } : NetOptionsIn).resolve =
        { nodeCount := 50, connectionDistance := 2, nodeColor := 0x4f46e5,
          lineColor := 0x8b5cf6, rotationSpeed := 0.0005, extra := e }) ∧
    (∀ o : NetOptionsIn, ({ o with nodeCount := none } : NetOptionsIn).resolve.nodeCount = 50) ∧
    (∀ o : NetOptionsIn, ({ o with connectionDistance := none } : NetOptionsIn).resolve.connectionDistance = 2) ∧
    (∀ o : NetOptionsIn, ({ o with nodeColor := none } : NetOptionsIn).resolve.nodeColor = 0x4f46e5) ∧
    (∀ o : NetOptionsIn, ({ o with lineColor := none } : NetOptionsIn).resolve.lineColor = 0x8b5cf6) ∧
    (∀ o : NetOptionsIn, ({ o with rotationSpeed := none } : NetOptionsIn).resolve.rotationSpeed = 0.0005) ∧
    (∀ (o : NetOptionsIn) (e : List String),
      ({ o with extra := e } : NetOptionsIn).resolve = { o.resolve with extra := e }) ∧
    (∀ (o : NetOptions) (e : List String) (rng : Nat → ℚ),
      NeuralNetwork.createNetwork { o with extra := e } rng =
        NeuralNetwork.createNetwork o rng) ∧
    (∀ (nst : NetState) (b : Bool) (e : List String),
      NeuralNetwork.animate b { nst with options := { nst.options with extra := e } } =
        { NeuralNetwork.animate b nst with options := { nst.options with extra := e } }) ∧
    (∀ e : List String,
      ({ extra := e } : CubeOptionsIn).resolve =
        { cubeCount := 6, cubeColor := 0x4f46e5, rotationSpeed := 0.005, extra := e }) ∧
    (∀ o : CubeOptionsIn, ({ o with cubeCount := none } : CubeOptionsIn).resolve.cubeCount = 6) ∧
    (∀ o : CubeOptionsIn, ({ o with cubeColor := none } : CubeOptionsIn).resolve.cubeColor = 0x4f46e5) ∧
    (∀ o : CubeOptionsIn, ({ o with rotationSpeed := none } : CubeOptionsIn).resolve.rotationSpeed = 0.005) ∧
    (∀ (o : CubeOptionsIn) (e : List String),
      ({ o with extra := e } : CubeOptionsIn).resolve = { o.resolve with extra := e }) ∧
    (∀ (o : CubeOptions) (e : List String) (rng : Nat → ℚ) (cosQ sinQ : ℚ → ℚ) (piQ : ℚ),
      DataCube.createCubes { o with extra := e } rng cosQ sinQ piQ =
        DataCube.createCubes o rng cosQ sinQ piQ) ∧
    (∀ (cst : CubeState) (sinQ : ℚ → ℚ) (time : ℚ) (e : List String),
      DataCube.animate sinQ time { cst with options := { cst.options with extra := e } } =
        { DataCube.animate sinQ time cst with options := { cst.options with extra := e } }) := by
  repeat' apply And.intro
  all_goals intros
  all_goals rfl

/-- C6: in FlowPipeline.update with the default configuration, a particle
whose x advances past the upper bound 3.5 is reset to exactly -3.5 (no
accumulated drift); a particle that does not cross simply advances by the
speed 0.02; immediately after a wrap the particle sits at -3.5 and the next
step advances it to -3.48 without wrapping again (one wrap per crossing);
positions stay inside [-3.5, 3.5], where createGeometry also starts them. -/
theorem flow_particle_wrap_exact (x : ℚ) (p : FlowParticle) :
    (x + 0.02 > 3.5 → ({ p with posX := x } : FlowParticle).step.posX = -3.5) ∧
    (¬ x + 0.02 > 3.5 → ({ p with posX := x } : FlowParticle).step.posX = x + 0.02) ∧
    (({ p with posX := -3.5 } : FlowParticle).step.posX = -3.48) ∧
    (-3.5 ≤ x → x ≤ 3.5 →
      -3.5 ≤ ({ p with posX := x } : FlowParticle).step.posX ∧
        ({ p with posX := x } : FlowParticle).step.posX ≤ 3.5) ∧
    (∀ (piQ : ℚ) (o : ProjOptions),
      ∀ q ∈ (FlowPipeline.createGeometry piQ o).particles,
        -3.5 ≤ q.posX ∧ q.posX ≤ 3.5) := by
  refine ⟨?_, ?_, ?_, ?_, ?_⟩
  · intro h
    simp only [FlowParticle.step, if_pos h]
  · intro h
    simp only [FlowParticle.step, if_neg h]
  · norm_num [FlowParticle.step]
  · intro h1 h2
    simp only [FlowParticle.step]
    split_ifs with h
    · constructor <;> norm_num
    · push_neg at h
      constructor <;> linarith
  · intro piQ o q hq
    simp only [FlowPipeline.createGeometry] at hq
    rw [List.mem_map] at hq
    obtain ⟨i, hi, rfl⟩ := hq
    rw [List.mem_range] at hi
    have hle : (i : ℚ) ≤ 4 := by exact_mod_cast Nat.lt_succ_iff.mp hi
    have hge : (0 : ℚ) ≤ (i : ℚ) := Nat.cast_nonneg i
    constructor <;> [nlinarith; nlinarith]

/-- C6 witness: a particle at x = 3.49 crosses (3.51 > 3.5) and wraps to
exactly -3.5. -/
theorem flow_particle_wrap_exact_witness :
    ((3.49 : ℚ) + 0.02 > 3.5) ∧
    (({ posX := 3.49, rotX := 0, rotY := 0 } : FlowParticle).step.posX = -3.5) :=
  ⟨by norm_num, (flow_particle_wrap_exact 3.49 ⟨3.49, 0, 0⟩).1 (by norm_num)⟩

/-- Concrete container used for the C2 scenario. -/
def c2container : Container := { clientWidth := 640, clientHeight := 360, children := [] }

/-- C2 counterexample: constructing NeuralNetwork with a valid container
returns with the DOM untouched — the constructor deliberately skips init
(`// Skipping synchronous init to allow async init flow`), so no renderer
output element is appended before init() is called explicitly, refuting the
claim that every effect appends its canvas synchronously at construction. -/
theorem neural_construct_appends_no_canvas :
    NeuralNetwork.construct [] (ContainerRef.element (some c2container)) {} =
      some { container := c2container, options := NetOptionsIn.resolve {},
             nodes := [], lines := [] } ∧
    c2container.children = [] :=
  ⟨rfl, rfl⟩

/-- C2 (amended): constructing AnimatedSphere, GeometricAnimation, or any
ProjectAnimation subclass with a resolvable container synchronously builds
the geometry and appends exactly one renderer canvas as a child of that
container (before the first frame renders); the NeuralNetwork and DataCube
constructors instead stop after storing options, and their canvas is
appended exactly once only when init() is invoked. -/
theorem construct_appends_single_canvas (doc : Document) (ref : ContainerRef)
    (c : Container) (h : resolveContainer doc ref = some c)
    (so : SphereOptionsIn) (go : GeoOptionsIn) (po : ProjOptionsIn)
    (no : NetOptionsIn) (co : CubeOptionsIn) (dpr : ℚ) (canvasId instId : Nat)
    (ls : List Listener) (rng : Nat → ℚ) (cosQ sinQ : ℚ → ℚ)
    (piQ time0 : ℚ) (b : Bool) {G : Type} (cg : ProjOptions → G) (upd : G → G) :
    (∃ st ls2, AnimatedSphere.construct doc ref so dpr canvasId instId ls = (some st, ls2) ∧
       st.container.children = c.children ++ [canvasId] ∧
       st.sphere.radius = so.resolve.radius ∧
       st.innerSphere.radius = so.resolve.radius * 0.6) ∧
    (∃ st ls2, GeometricAnimation.construct doc ref go dpr canvasId instId ls = (some st, ls2) ∧
       st.container.children = c.children ++ [canvasId]) ∧
    (∃ st ls2, ProjectAnimation.construct cg upd doc ref po dpr canvasId instId ls = (some st, ls2) ∧
       st.container.children = c.children ++ [canvasId] ∧
       st.geom = upd (cg po.resolve)) ∧
    (NeuralNetwork.construct doc ref no =
       some { container := c, options := no.resolve, nodes := [], lines := [] } ∧
     (NeuralNetwork.init { container := c, options := no.resolve, nodes := [], lines := [] }
        dpr canvasId instId rng b ls).1.container.children = c.children ++ [canvasId]) ∧
    (DataCube.construct doc ref co =
       some { container := c, options := co.resolve, cubes := [] } ∧
     (DataCube.init { container := c, options := co.resolve, cubes := [] }
        dpr canvasId instId rng cosQ sinQ piQ time0 ls).1.container.children
       = c.children ++ [canvasId]) := by
  have e1 : AnimatedSphere.construct doc ref so dpr canvasId instId ls =
      (some (AnimatedSphere.init c so.resolve dpr canvasId instId ls).1,
       (AnimatedSphere.init c so.resolve dpr canvasId instId ls).2) := by
    simp only [AnimatedSphere.construct, h]
  have e2 : GeometricAnimation.construct doc ref go dpr canvasId instId ls =
      (some (GeometricAnimation.init c go.resolve dpr canvasId instId ls).1,
       (GeometricAnimation.init c go.resolve dpr canvasId instId ls).2) := by
    simp only [GeometricAnimation.construct, h]
  have e3 : ProjectAnimation.construct cg upd doc ref po dpr canvasId instId ls =
      (some (ProjectAnimation.init cg upd c po.resolve dpr canvasId instId ls).1,
       (ProjectAnimation.init cg upd c po.resolve dpr canvasId instId ls).2) := by
    simp only [ProjectAnimation.construct, h]
  have e4 : NeuralNetwork.construct doc ref no =
      some { container := c, options := no.resolve, nodes := [], lines := [] } := by
    simp only [NeuralNetwork.construct, h]
  have e5 : DataCube.construct doc ref co =
      some { container := c, options := co.resolve, cubes := [] } := by
    simp only [DataCube.construct, h]
  exact ⟨⟨_, _, e1, rfl, rfl, rfl⟩, ⟨_, _, e2, rfl⟩, ⟨_, _, e3, rfl, rfl⟩,
    ⟨e4, rfl⟩, ⟨e5, rfl⟩⟩

/-- The NetPre record the NeuralNetwork constructor produces on c2container
with all options omitted. -/
def c2netPre : NetPre :=
  { container := c2container, options := NetOptionsIn.resolve {}, nodes := [], lines := [] }

/-- The CubePre record the DataCube constructor produces on c2container with
all options omitted. -/
def c2cubePre : CubePre :=
  { container := c2container, options := CubeOptionsIn.resolve {}, cubes := [] }

/-- C2 witness: the amended statement evaluated at a concrete container
passed directly to all five constructors. -/
theorem construct_appends_single_canvas_witness :
    resolveContainer [] (ContainerRef.element (some c2container)) = some c2container ∧
    ((∃ st ls2, AnimatedSphere.construct [] (ContainerRef.element (some c2container))
          {} 1 9 4 [] = (some st, ls2) ∧
        st.container.children = c2container.children ++ [9] ∧
        st.sphere.radius = ({} : SphereOptionsIn).resolve.radius ∧
        st.innerSphere.radius = ({} : SphereOptionsIn).resolve.radius * 0.6) ∧
     (∃ st ls2, GeometricAnimation.construct [] (ContainerRef.element (some c2container))
          {} 1 9 4 [] = (some st, ls2) ∧
        st.container.children = c2container.children ++ [9]) ∧
     (∃ st ls2, ProjectAnimation.construct (FlowPipeline.createGeometry 3) FlowPipeline.update
          [] (ContainerRef.element (some c2container)) {} 1 9 4 [] = (some st, ls2) ∧
        st.container.children = c2container.children ++ [9] ∧
        st.geom = FlowPipeline.update (FlowPipeline.createGeometry 3
          (({} : ProjOptionsIn).resolve))) ∧
     (NeuralNetwork.construct [] (ContainerRef.element (some c2container)) {} =
        some c2netPre ∧
      (NeuralNetwork.init c2netPre 1 9 4 (fun _ => 0) true []).1.container.children
        = c2container.children ++ [9]) ∧
     (DataCube.construct [] (ContainerRef.element (some c2container)) {} =
        some c2cubePre ∧
      (DataCube.init c2cubePre 1 9 4 (fun _ => 0) (fun _ => 0) (fun _ => 0) 3 0 []).1.container.children
        = c2container.children ++ [9])) :=
  ⟨rfl, construct_appends_single_canvas [] (ContainerRef.element (some c2container))
    c2container rfl {} {} {} {} {} 1 9 4 [] (fun _ => 0) (fun _ => 0) (fun _ => 0) 3 0 true
    (FlowPipeline.createGeometry 3) FlowPipeline.update⟩

/-- Concrete container used for the C3 scenario. -/
def c3container : Container := { clientWidth := 300, clientHeight := 150, children := [] }

/-- The AnimatedSphere instance (state plus global listener list) built by
init on c3container with instance id 7 and canvas id 42. -/
def c3init : SphereState × List Listener :=
  AnimatedSphere.init c3container (SphereOptionsIn.resolve {}) 1 42 7 []

/-- The result of calling destroy() on that instance. -/
def c3destroyed : SphereState × List Listener :=
  AnimatedSphere.destroy c3init.1 c3init.2

/-- C3: destroy() disposes the renderer and detaches the canvas, but it does
NOT remove the global listeners the instance registered: init registered the
arrow wrappers, while destroy passes the prototype methods `this.onResize` /
`this.onMouseMove` to removeEventListener — different function objects — so
removeEventListener matches nothing and both wrappers stay registered. -/
theorem destroy_leaves_global_listeners :
    c3init.2 = [Listener.resizeArrow 7, Listener.mousemoveArrow 7] ∧
    c3destroyed.2 = [Listener.resizeArrow 7, Listener.mousemoveArrow 7] ∧
    c3destroyed.1.renderer.disposed = true ∧
    c3destroyed.1.container.children = [] :=
  ⟨rfl, rfl, rfl, rfl⟩

/-- C5 (amended): with the pointer held at the exact viewport center
(normalized mouse (0,0)) the rotation does NOT converge to (0,0): the
per-frame auto-rotation increment shifts the attractor.  Each animate step
contracts the distance to the fixed point, componentwise, by the exact
factor 19/20 = 1 - 0.05; the fixed point is ((19/2)·rotationSpeed,
19·rotationSpeed) for AnimatedSphere and (57/1000, 19/200) for
GeometricAnimation — nonzero whenever the auto-rotation increments are. -/
theorem pointer_center_contracts_to_shifted_fixed_point (st : SphereState)
    (gst : GeoState) (hm : st.mouse = (0, 0)) (hg : gst.mouse = (0, 0)) :
    ((AnimatedSphere.animate st).sphere.rotX - 19 / 2 * st.options.rotationSpeed
       = 19 / 20 * (st.sphere.rotX - 19 / 2 * st.options.rotationSpeed)) ∧
    ((AnimatedSphere.animate st).sphere.rotY - 19 * st.options.rotationSpeed
       = 19 / 20 * (st.sphere.rotY - 19 * st.options.rotationSpeed)) ∧
    ((GeometricAnimation.animate gst).mesh.rotX - 57 / 1000
       = 19 / 20 * (gst.mesh.rotX - 57 / 1000)) ∧
    ((GeometricAnimation.animate gst).mesh.rotY - 19 / 200
       = 19 / 20 * (gst.mesh.rotY - 19 / 200)) := by
  have h1 : st.mouse.1 = 0 := by rw [hm]
  have h2 : st.mouse.2 = 0 := by rw [hm]
  have g1 : gst.mouse.1 = 0 := by rw [hg]
  have g2 : gst.mouse.2 = 0 := by rw [hg]
  refine ⟨?_, ?_, ?_, ?_⟩ <;>
    simp only [AnimatedSphere.animate, GeometricAnimation.animate, h1, h2, g1, g2] <;>
    ring

/-- Concrete AnimatedSphere state at rotation (0,0) with the pointer at the
viewport center and default options. -/
def c5sphereState : SphereState :=
  { container := { clientWidth := 640, clientHeight := 320, children := [0] },
    options := SphereOptionsIn.resolve {},
    mouse := (0, 0),
    targetRotation := (0, 0),
    camera := { fov := 50, aspect := 2, near := 0.1, far := 1000, posZ := 4 },
    renderer := { antialias := true, alpha := true, width := 640, height := 320,
                  pixelRatio := 1, domElementId := 0, disposed := false },
    sphere := (AnimatedSphere.createSphere (SphereOptionsIn.resolve {})).1,
    innerSphere := (AnimatedSphere.createSphere (SphereOptionsIn.resolve {})).2,
    instId := 0 }

/-- Concrete GeometricAnimation state at rotation (0,0) with the pointer at
the viewport center and default options. -/
def c5geoState : GeoState :=
  { container := { clientWidth := 640, clientHeight := 320, children := [1] },
    options := GeoOptionsIn.resolve {},
    mouse := (0, 0),
    targetRotation := (0, 0),
    camera := { fov := 50, aspect := 2, near := 0.1, far := 1000, posZ := 5 },
    renderer := { antialias := true, alpha := true, width := 640, height := 320,
                  pixelRatio := 1, domElementId := 1, disposed := false },
    mesh := { radius := 1, tube := 0.3, tubularSegments := 100, radialSegments := 16,
              color := 0x4f46e5, wireframe := true, opacity := 0.6, rotX := 0, rotY := 0 },
    instId := 1 }

/-- C5 counterexample: starting from rotation (0,0) with the pointer at the
exact viewport center, one animate step moves the sphere rotation strictly
away from zero (to (19/40000, 19/20000)), refuting the claim that the
angular distance from zero decreases monotonically toward (0,0). -/
theorem pointer_center_rotation_moves_away_from_zero :
    c5sphereState.mouse = (0, 0) ∧
    c5sphereState.sphere.rotX = 0 ∧ c5sphereState.sphere.rotY = 0 ∧
    |(AnimatedSphere.animate c5sphereState).sphere.rotX| > |c5sphereState.sphere.rotX| ∧
    |(AnimatedSphere.animate c5sphereState).sphere.rotY| > |c5sphereState.sphere.rotY| := by
  have hx : (AnimatedSphere.animate c5sphereState).sphere.rotX = 19 / 40000 := by
    norm_num [AnimatedSphere.animate, c5sphereState, SphereOptionsIn.resolve,
      AnimatedSphere.createSphere]
  have hy : (AnimatedSphere.animate c5sphereState).sphere.rotY = 19 / 20000 := by
    norm_num [AnimatedSphere.animate, c5sphereState, SphereOptionsIn.resolve,
      AnimatedSphere.createSphere]
  refine ⟨rfl, rfl, rfl, ?_, ?_⟩
  · rw [hx, show c5sphereState.sphere.rotX = 0 from rfl, abs_zero]
    exact abs_pos.mpr (by norm_num)
  · rw [hy, show c5sphereState.sphere.rotY = 0 from rfl, abs_zero]
    exact abs_pos.mpr (by norm_num)

/-- C5 witness: the contraction identity evaluated on the concrete states. -/
theorem pointer_center_contracts_witness :
    c5sphereState.mouse = (0, 0) ∧ c5geoState.mouse = (0, 0) ∧
    (((AnimatedSphere.animate c5sphereState).sphere.rotX
        - 19 / 2 * c5sphereState.options.rotationSpeed
       = 19 / 20 * (c5sphereState.sphere.rotX
        - 19 / 2 * c5sphereState.options.rotationSpeed)) ∧
     ((AnimatedSphere.animate c5sphereState).sphere.rotY
        - 19 * c5sphereState.options.rotationSpeed
       = 19 / 20 * (c5sphereState.sphere.rotY
        - 19 * c5sphereState.options.rotationSpeed)) ∧
     ((GeometricAnimation.animate c5geoState).mesh.rotX - 57 / 1000
       = 19 / 20 * (c5geoState.mesh.rotX - 57 / 1000)) ∧
     ((GeometricAnimation.animate c5geoState).mesh.rotY - 19 / 200
       = 19 / 20 * (c5geoState.mesh.rotY - 19 / 200))) :=
  ⟨rfl, rfl, pointer_center_contracts_to_shifted_fixed_point c5sphereState c5geoState rfl rfl⟩

/-- C4 (amended): after any animate step the number of rendered connection
lines never exceeds C(n,2) for n nodes (it is left unchanged on the roughly
90% of frames whose Math.random() coin skips updateConnections, and freshly
recomputed otherwise); on every frame that does recompute, the count equals
the number of unordered node pairs whose current distance is strictly below
connectionDistance at that frame. -/
theorem connections_bounded_and_exact_on_recompute (st : NetState) (b : Bool)
    (h : st.lines.length ≤ st.nodes.length.choose 2) :
    (NeuralNetwork.animate b st).lines.length
      ≤ (NeuralNetwork.animate b st).nodes.length.choose 2 ∧
    (NeuralNetwork.animate true st).lines.length
      = closePairCount ((NeuralNetwork.animate true st).nodes.map NetNode.pos)
          st.options.connectionDistance := by
  constructor
  · cases b with
    | false => simpa [NeuralNetwork.animate] using h
    | true =>
        simp only [NeuralNetwork.animate, if_true, List.length_map,
          NeuralNetwork.updateConnections]
        exact le_trans (List.length_filter_le _ _)
          (le_of_eq (by rw [allPairs_length]; simp))
  · simp [NeuralNetwork.animate, NeuralNetwork.updateConnections, closePairCount,
      List.countP_eq_length_filter]

/-- Concrete two-node network state: nodes at distance 1 (below the default
threshold 2), zero velocities, and an empty (stale) line group. -/
def c4state : NetState :=
  { container := { clientWidth := 640, clientHeight := 360, children := [2] },
    options := NetOptionsIn.resolve {},
    camera := { fov := 60, aspect := 16 / 9, near := 0.1, far := 1000, posZ := 5 },
    renderer := { antialias := true, alpha := true, width := 640, height := 360,
                  pixelRatio := 1, domElementId := 2, disposed := false },
    nodes := [{ pos := { x := 0, y := 0, z := 0 }, vel := { x := 0, y := 0, z := 0 } },
              { pos := { x := 1, y := 0, z := 0 }, vel := { x := 0, y := 0, z := 0 } }],
    lines := [],
    nodeGroupRotY := 0,
    lineGroupRotY := 0,
    instId := 2 }

/-- C4 counterexample: on a frame whose Math.random() coin skips
updateConnections, the rendered line count (0, stale) differs from the
number of node pairs within the threshold at that frame (1), refuting the
claim for arbitrary update steps. -/
theorem connections_stale_on_skipped_frame :
    (NeuralNetwork.animate false c4state).lines.length = 0 ∧
    closePairCount ((NeuralNetwork.animate false c4state).nodes.map NetNode.pos)
      (NeuralNetwork.animate false c4state).options.connectionDistance = 1 := by
  constructor
  · rfl
  · norm_num [NeuralNetwork.animate, NeuralNetwork.nodeStep, NeuralNetwork.axisStep,
      c4state, closePairCount, allPairs, connects, dist2, NetOptionsIn.resolve,
      List.countP, List.countP.go, abs]

/-- C4 witness: the amended statement evaluated on the concrete two-node
state with the recompute coin landing on updateConnections. -/
theorem connections_bounded_and_exact_witness :
    c4state.lines.length ≤ c4state.nodes.length.choose 2 ∧
    ((NeuralNetwork.animate true c4state).lines.length
       ≤ (NeuralNetwork.animate true c4state).nodes.length.choose 2 ∧
     (NeuralNetwork.animate true c4state).lines.length
       = closePairCount ((NeuralNetwork.animate true c4state).nodes.map NetNode.pos)
           c4state.options.connectionDistance) :=
  ⟨Nat.zero_le _, connections_bounded_and_exact_on_recompute c4state true (Nat.zero_le _)⟩

/-- Per-axis invariant for C10: the velocity is small, the position is inside
the open band (-2.005, 2.005), and whenever the position has escaped past 2
in absolute value, either the velocity points back inward or the next
position (which equals the pre-bounce position when the velocity was just
negated) is itself inside the band. -/
def axisOK (p v : ℚ) : Prop :=
  |v| < 0.005 ∧ |p| < 2.005 ∧ (2 < |p| → (p * v < 0 ∨ |p + v| < 2.005))

theorem axisOK_start {p v : ℚ} (h1 : |p| < 2) (h2 : |v| < 0.005) : axisOK p v :=
  ⟨h2, by linarith, fun hc => absurd hc (not_lt.mpr h1.le)⟩

theorem axisStep_preserves {p v : ℚ} (h : axisOK p v) :
    axisOK (NeuralNetwork.axisStep p v).1 (NeuralNetwork.axisStep p v).2 := by
  obtain ⟨hv, hp, hcond⟩ := h
  have hv1 : -0.005 < v := (abs_lt.mp hv).1
  have hv2 : v < 0.005 := (abs_lt.mp hv).2
  have hp1 : -2.005 < p := (abs_lt.mp hp).1
  have hp2 : p < 2.005 := (abs_lt.mp hp).2
  simp only [NeuralNetwork.axisStep]
  split_ifs with hb
  · refine ⟨by rwa [abs_neg], ?_, ?_⟩
    · by_cases hin : |p| ≤ 2
      · calc |p + v| ≤ |p| + |v| := abs_add p v
          _ < 2.005 := by linarith
      · push_neg at hin
        rcases hcond hin with hpv | hok
        · rcases lt_or_le 0 p with hpos | hneg
          · have hpgt : 2 < p := by
              rcases abs_cases p with ⟨he, _⟩ | ⟨he, _⟩
              · rwa [he] at hin
              · exfalso; rw [he] at hin; linarith
            have hvneg : v < 0 := by nlinarith
            rw [abs_lt]
            constructor <;> linarith
          · have hplt : p < -2 := by
              rcases abs_cases p with ⟨he, _⟩ | ⟨he, _⟩
              · exfalso; rw [he] at hin; linarith
              · rw [he] at hin; linarith
            have hvpos : 0 < v := by nlinarith
            rw [abs_lt]
            constructor <;> linarith
        · exact hok
    · intro _
      right
      have hep : p + v + -v = p := by ring
      rw [hep]
      exact hp
  · push_neg at hb
    exact ⟨hv, by linarith, fun hc => absurd hc (not_lt.mpr hb)⟩

/-- The C10 invariant for a whole node: axisOK on each coordinate. -/
def nodeOK (nd : NetNode) : Prop :=
  axisOK nd.pos.x nd.vel.x ∧ axisOK nd.pos.y nd.vel.y ∧ axisOK nd.pos.z nd.vel.z

theorem nodeStep_preserves {nd : NetNode} (h : nodeOK nd) :
    nodeOK (NeuralNetwork.nodeStep nd) :=
  ⟨axisStep_preserves h.1, axisStep_preserves h.2.1, axisStep_preserves h.2.2⟩

theorem animate_preserves_nodeOK {st : NetState} {b : Bool}
    (h : ∀ nd ∈ st.nodes, nodeOK nd) :
    ∀ nd ∈ (NeuralNetwork.animate b st).nodes, nodeOK nd := by
  intro nd hnd
  simp only [NeuralNetwork.animate, List.mem_map] at hnd
  obtain ⟨nd0, h0, rfl⟩ := hnd
  exact nodeStep_preserves (h nd0 h0)

theorem run_preserves_nodeOK {flags : List Bool} {st : NetState}
    (h : ∀ nd ∈ st.nodes, nodeOK nd) :
    ∀ nd ∈ (NeuralNetwork.run flags st).nodes, nodeOK nd := by
  induction flags generalizing st with
  | nil => simpa [NeuralNetwork.run] using h
  | cons b rest ih =>
      have hstep := animate_preserves_nodeOK (b := b) h
      have hrest := ih hstep
      simpa [NeuralNetwork.run] using hrest

/-- C10: node positions stay bounded forever.  If every node starts with all
position coordinates in (-2, 2) and all velocity components of absolute
value below 0.005, then after any number of animate steps (each adds the
velocity to the position, then negates a velocity component whenever the
corresponding coordinate exceeds 2 in absolute value) every coordinate stays
strictly below 2.005 in absolute value. -/
theorem node_positions_stay_bounded (st : NetState) (flags : List Bool)
    (h : ∀ nd ∈ st.nodes,
      (|nd.pos.x| < 2 ∧ |nd.pos.y| < 2 ∧ |nd.pos.z| < 2) ∧
      (|nd.vel.x| < 0.005 ∧ |nd.vel.y| < 0.005 ∧ |nd.vel.z| < 0.005)) :
    ∀ nd ∈ (NeuralNetwork.run flags st).nodes,
      |nd.pos.x| < 2.005 ∧ |nd.pos.y| < 2.005 ∧ |nd.pos.z| < 2.005 := by
  have h0 : ∀ nd ∈ st.nodes, nodeOK nd := by
    intro nd hnd
    obtain ⟨⟨px, py, pz⟩, ⟨vx, vy, vz⟩⟩ := h nd hnd
    exact ⟨axisOK_start px vx, axisOK_start py vy, axisOK_start pz vz⟩
  intro nd hnd
  obtain ⟨hx, hy, hz⟩ := run_preserves_nodeOK h0 nd hnd
  exact ⟨hx.2.1, hy.2.1, hz.2.1⟩

/-- Concrete one-node network state for the C10 witness. -/
def c10state : NetState :=
  { container := { clientWidth := 400, clientHeight := 300, children := [3] },
    options := NetOptionsIn.resolve {},
    camera := { fov := 60, aspect := 4 / 3, near := 0.1, far := 1000, posZ := 5 },
    renderer := { antialias := true, alpha := true, width := 400, height := 300,
                  pixelRatio := 2, domElementId := 3, disposed := false },
    nodes := [{ pos := { x := 1, y := 0, z := -1 },
                vel := { x := 0.004, y := 0, z := -0.004 } }],
    lines := [],
    nodeGroupRotY := 0,
    lineGroupRotY := 0,
    instId := 3 }

/-- C10 witness: the boundedness statement evaluated on the concrete
one-node state over three frames. -/
theorem node_positions_stay_bounded_witness :
    (∀ nd ∈ c10state.nodes,
      (|nd.pos.x| < 2 ∧ |nd.pos.y| < 2 ∧ |nd.pos.z| < 2) ∧
      (|nd.vel.x| < 0.005 ∧ |nd.vel.y| < 0.005 ∧ |nd.vel.z| < 0.005)) ∧
    (∀ nd ∈ (NeuralNetwork.run [false, true, false] c10state).nodes,
      |nd.pos.x| < 2.005 ∧ |nd.pos.y| < 2.005 ∧ |nd.pos.z| < 2.005) :=
  ⟨by
    intro nd hnd
    simp only [c10state, List.mem_singleton] at hnd
    subst hnd
    simp only [abs_lt]
    norm_num,
   node_positions_stay_bounded c10state [false, true, false] (by
    intro nd hnd
    simp only [c10state, List.mem_singleton] at hnd
    subst hnd
    simp only [abs_lt]
    norm_num)⟩
